import Mathlib

/-!
Shallow embedding of the ETH price-alert bot (src/main.py) and proofs about it.

Prices are modelled as rationals (ℚ); the fetch result of
`EthereumPriceTracker.get_eth_price` is `Option ℚ` (`none` = failure, mirroring
Python's `None`). The monitor loop's two module-level variables
`last_eth_price` and `last_notification_price` form the `MonitorState`.
One iteration of the `while True` body of `price_monitoring` becomes the pure
function `price_monitoring_iter`, which also returns the list of calls made to
`send_price_notification` (each call carries the `(price, change)` arguments).
-/

namespace EthBot

/-- The module-level monitor state of main.py: `last_eth_price` and
`last_notification_price`, both initially `None`. -/
structure MonitorState where
  last_eth_price : Option ℚ
  last_notification_price : Option ℚ
  deriving DecidableEq, Repr

/-- Initial state: both globals are `None` at module load. -/
def initState : MonitorState := ⟨none, none⟩

/-- One iteration of the `while True` body of `price_monitoring`
(src/main.py lines 158-187), given the fetch outcome `current_price`.
Returns the new state and the list of `send_price_notification` calls
(arguments `(price, change)`) made during the iteration:
  * `current_price is None` → log, sleep, `continue` (no state change);
  * `last_notification_price is not None` → `price_change = p - ref`;
    if `abs(price_change) >= PRICE_THRESHOLD` then notify and set
    `last_notification_price = p`;
  * else (first success) → `last_notification_price = p`, no notification;
  * finally `last_eth_price = p` unconditionally. -/
def price_monitoring_iter (PRICE_THRESHOLD : ℚ) (st : MonitorState)
    (current_price : Option ℚ) : MonitorState × List (ℚ × ℚ) :=
  match current_price with
  | none => (st, [])
  | some p =>
    match st.last_notification_price with
    | some ref =>
      let price_change := p - ref
      if |price_change| ≥ PRICE_THRESHOLD then
        ({ last_eth_price := some p, last_notification_price := some p },
          [(p, price_change)])
      else
        ({ last_eth_price := some p, last_notification_price := some ref }, [])
    | none =>
      ({ last_eth_price := some p, last_notification_price := some p }, [])

/-- Running the monitor loop over a finite sequence of fetch outcomes,
accumulating all `send_price_notification` calls in order. -/
def price_monitoring_run (PRICE_THRESHOLD : ℚ) :
    MonitorState → List (Option ℚ) → MonitorState × List (ℚ × ℚ)
  | st, [] => (st, [])
  | st, f :: fs =>
    let r1 := price_monitoring_iter PRICE_THRESHOLD st f
    let r2 := price_monitoring_run PRICE_THRESHOLD r1.1 fs
    (r2.1, r1.2 ++ r2.2)

/-- C1: with an established reference price `p1`, a successfully fetched
price `p2` with `abs(p2 - p1) >= threshold` (including a move of exactly the
threshold, since the comparison is `>=`) makes the iteration call the
notification dispatch exactly once, with `delta = p2 - p1`; afterwards
`last_notification_price = p2` and `last_eth_price = p2`. -/
theorem monitor_notifies_on_threshold (th p1 p2 : ℚ) (le : Option ℚ)
    (h : |p2 - p1| ≥ th) :
    price_monitoring_iter th ⟨le, some p1⟩ (some p2) =
      (⟨some p2, some p2⟩, [(p2, p2 - p1)]) := by
  simp [price_monitoring_iter, h]

/-- Witness for C1: the spec's scenario, reference 3000, fetch 3060,
threshold 50. -/
theorem monitor_notifies_on_threshold_witness :
    price_monitoring_iter 50 ⟨some 3000, some 3000⟩ (some 3060) =
      (⟨some 3060, some 3060⟩, [(3060, 3060 - 3000)]) :=
  monitor_notifies_on_threshold 50 3000 3060 (some 3000) (by norm_num)

/-- C2: with an established reference price `p1`, a successfully fetched
price `p2` with `abs(p2 - p1) < threshold` produces no notification,
`last_notification_price` remains `p1`, and `last_eth_price` is still
unconditionally updated to `p2`. -/
theorem monitor_quiet_below_threshold (th p1 p2 : ℚ) (le : Option ℚ)
    (h : |p2 - p1| < th) :
    price_monitoring_iter th ⟨le, some p1⟩ (some p2) =
      (⟨some p2, some p1⟩, []) := by
  simp [price_monitoring_iter, not_le.2 h]

/-- Witness for C2: reference 3000, fetch 3010, threshold 50. -/
theorem monitor_quiet_below_threshold_witness :
    price_monitoring_iter 50 ⟨some 3000, some 3000⟩ (some 3010) =
      (⟨some 3010, some 3000⟩, []) :=
  monitor_quiet_below_threshold 50 3000 3010 (some 3000) (by norm_num)

/-- Helper: a run consisting solely of failed fetches changes nothing and
sends nothing. -/
theorem run_of_failures (th : ℚ) (st : MonitorState) (fs : List (Option ℚ))
    (h : ∀ f ∈ fs, f = none) :
    price_monitoring_run th st fs = (st, []) := by
  induction fs with
  | nil => rfl
  | cons f fs ih =>
    have hf : f = none := h f (List.mem_cons_self f fs)
    subst hf
    have : ∀ g ∈ fs, g = none := fun g hg => h g (List.mem_cons_of_mem _ hg)
    simp [price_monitoring_run, price_monitoring_iter, ih this]

/-- C3: from the initial state, during any prefix of failed fetches no
notification is sent and the state is unchanged; the first successful fetch
`p` then sets `last_notification_price = p` (and `last_eth_price = p`) without
sending any notification. -/
theorem no_notification_before_baseline (th p : ℚ) (pre : List (Option ℚ))
    (h : ∀ f ∈ pre, f = none) :
    price_monitoring_run th initState pre = (initState, []) ∧
    price_monitoring_iter th initState (some p) = (⟨some p, some p⟩, []) :=
  ⟨run_of_failures th initState pre h, rfl⟩

/-- Witness for C3: two failed fetches, then a first success at 3000. -/
theorem no_notification_before_baseline_witness :
    price_monitoring_run 50 initState [none, none] = (initState, []) ∧
    price_monitoring_iter 50 initState (some 3000) =
      (⟨some 3000, some 3000⟩, []) :=
  no_notification_before_baseline 50 3000 [none, none] (by simp)

/-- C4: a fetch failure (`current_price is None`) leaves both
`last_eth_price` and `last_notification_price` unchanged and sends no
notification; the loop just proceeds to the next tick. -/
theorem monitor_failure_unchanged (th : ℚ) (st : MonitorState) :
    price_monitoring_iter th st none = (st, []) := rfl

/-- The spec's §3 invariant on the monitor state for a given threshold:
whenever both variables are set, `abs(currentPrice - referencePrice) <
threshold`. -/
def monitorInvariant (th : ℚ) (st : MonitorState) : Prop :=
  ∀ l r : ℚ, st.last_eth_price = some l →
    st.last_notification_price = some r → |l - r| < th

/-- C5 counterexample: `PRICE_THRESHOLD` is read from the environment and
may be configured as 0. With threshold 0, the baseline-establishing
iteration (fetch 3000 from the initial state) completes without sending any
notification, yet `abs(last_eth_price - last_notification_price) = 0` is not
`< 0`: the invariant fails as stated for that configured threshold. -/
theorem monitor_invariant_zero_threshold_counterexample :
    (price_monitoring_iter 0 initState (some 3000)).2 = [] ∧
    (price_monitoring_iter 0 initState (some 3000)).1.last_eth_price
      = some 3000 ∧
    (price_monitoring_iter 0 initState (some 3000)).1.last_notification_price
      = some 3000 ∧
    ¬ |(3000 : ℚ) - 3000| < 0 :=
  ⟨rfl, rfl, rfl, by norm_num⟩

/-- Helper for C5: for a positive threshold, one iteration re-establishes or
preserves the invariant. -/
theorem iter_preserves_invariant (th : ℚ) (hth : 0 < th) (st : MonitorState)
    (hst : monitorInvariant th st) (f : Option ℚ) :
    monitorInvariant th (price_monitoring_iter th st f).1 := by
  cases f with
  | none => exact hst
  | some p =>
    cases href : st.last_notification_price with
    | none =>
      intro l r hl hr
      simp [price_monitoring_iter, href] at hl hr
      subst hl; subst hr
      simpa using hth
    | some ref =>
      by_cases hc : |p - ref| ≥ th
      · intro l r hl hr
        simp [price_monitoring_iter, href, hc] at hl hr
        subst hl; subst hr
        simpa using hth
      · intro l r hl hr
        simp [price_monitoring_iter, href, hc] at hl hr
        subst hl; subst hr
        exact lt_of_not_le hc

/-- C5 amended: for every positive configured threshold, after every
completed iteration of any run from the initial state — in particular after
every iteration that did not send a notification — whenever
`last_notification_price` is set, `abs(last_eth_price -
last_notification_price) < threshold` holds. (The counterexample forces the
restriction to positive thresholds; the spec states it unconditionally.) -/
theorem monitor_invariant_positive_threshold (th : ℚ) (hth : 0 < th)
    (fs : List (Option ℚ)) :
    monitorInvariant th (price_monitoring_run th initState fs).1 := by
  suffices h : ∀ st, monitorInvariant th st →
      monitorInvariant th (price_monitoring_run th st fs).1 by
    exact h initState (by intro l r hl; simp [initState] at hl)
  induction fs with
  | nil => intro st hst; exact hst
  | cons f fs ih =>
    intro st hst
    exact ih _ (iter_preserves_invariant th hth st hst f)

/-- Witness for C5 (amended): threshold 50, fetch sequence
`[3000, failure, 3010]`. -/
theorem monitor_invariant_positive_threshold_witness :
    monitorInvariant 50
      (price_monitoring_run 50 initState [some 3000, none, some 3010]).1 :=
  monitor_invariant_positive_threshold 50 (by norm_num)
    [some 3000, none, some 3010]

/-- The registry effect of `start_handler` (src/main.py line 74):
`user_ids.add(message.from_user.id)`. The Python `set` is modelled as a
`Finset ℤ`; the welcome text sent back is irrelevant to the claims. -/
def start_handler (user_ids : Finset ℤ) (uid : ℤ) : Finset ℤ :=
  insert uid user_ids

/-- The registry effect of `stop_handler` (src/main.py line 122):
`user_ids.discard(message.from_user.id)` — Python's `discard` never raises,
so it is a total erase. -/
def stop_handler (user_ids : Finset ℤ) (uid : ℤ) : Finset ℤ :=
  user_ids.erase uid

/-- C6: subscribe and unsubscribe are idempotent on the registry: adding an
already-present id and removing an absent id each leave the membership
unchanged (both operations are total functions, so neither raises). -/
theorem subscribe_unsubscribe_idempotent (r : Finset ℤ) (uid : ℤ) :
    (uid ∈ r → start_handler r uid = r) ∧
    (uid ∉ r → stop_handler r uid = r) :=
  ⟨fun h => Finset.insert_eq_self.2 h, fun h => Finset.erase_eq_self.2 h⟩

/-- Witness for C6: subscribing 3 when already in `{3}`, and unsubscribing 5
which is absent from `{3}`. -/
theorem subscribe_unsubscribe_idempotent_witness :
    start_handler {3} 3 = {3} ∧ stop_handler {3} 5 = {3} :=
  ⟨(subscribe_unsubscribe_idempotent {3} 3).1 (by decide),
   (subscribe_unsubscribe_idempotent {3} 5).2 (by decide)⟩

/-- `needle` matches at the head of `hay` (character-wise). -/
def matchesAt : List Char → List Char → Bool
  | [], _ => true
  | _ :: _, [] => false
  | a :: as, b :: bs => a == b && matchesAt as bs

/-- `needle` occurs as a contiguous substring of `hay` — the model of
Python's `in` operator on strings. -/
def substrOccurs (needle : List Char) : List Char → Bool
  | [] => needle.isEmpty
  | b :: bs => matchesAt needle (b :: bs) || substrOccurs needle bs

/-- ASCII lower-casing of one character, the effect of Python's
`str.lower()` on the ASCII exception texts involved here. -/
def lowerChar (c : Char) : Char :=
  if 65 ≤ c.toNat ∧ c.toNat ≤ 90 then Char.ofNat (c.toNat + 32) else c

/-- The eviction test of src/main.py line 148:
`"bot was blocked" in str(e).lower()`. -/
def isBlockedError (msg : String) : Bool :=
  substrOccurs "bot was blocked".data (msg.data.map lowerChar)

/-- A delivery attempt either succeeds (`none`) or raises an exception whose
string form is `msg` (`some msg`) — the outcome of `bot.send_message` for a
given recipient. -/
def evicted (deliver : ℤ → Option String) (uid : ℤ) : Bool :=
  match deliver uid with
  | none => false
  | some msg => isBlockedError msg

/-- The `for user_id in user_ids.copy()` loop of `send_price_notification`
(src/main.py lines 142-149): each delivery is attempted independently; on an
exception whose text contains the blocked signal the recipient is discarded
from the live registry; any other exception is logged and ignored. Returns
the registry after the loop and the list of recipients to whom the message
was delivered. -/
def notifyLoop (deliver : ℤ → Option String) :
    List ℤ → Finset ℤ → Finset ℤ × List ℤ
  | [], r => (r, [])
  | uid :: rest, r =>
    match deliver uid with
    | none =>
      let out := notifyLoop deliver rest r
      (out.1, uid :: out.2)
    | some msg =>
      if isBlockedError msg then notifyLoop deliver rest (r.erase uid)
      else notifyLoop deliver rest r

/-- `send_price_notification` (src/main.py lines 126-149): early return when
`user_ids` is empty, otherwise iterate over a snapshot (`user_ids.copy()`) of
the registry; the snapshot is modelled as the sorted enumeration of the set
(Python's iteration order over a set copy is unspecified). Message formatting
has no effect on registry or delivery and is not modelled. -/
def send_price_notification (deliver : ℤ → Option String)
    (user_ids : Finset ℤ) : Finset ℤ × List ℤ :=
  if user_ids = ∅ then (user_ids, [])
  else notifyLoop deliver (user_ids.sort (· ≤ ·)) user_ids

/-- Helper: a recipient whose delivery does not fail with the blocked signal
is never removed from the registry by the loop. -/
theorem mem_notifyLoop_of_not_evicted (deliver : ℤ → Option String) (x : ℤ)
    (hx : evicted deliver x = false) (s : List ℤ) :
    ∀ r : Finset ℤ, x ∈ r → x ∈ (notifyLoop deliver s r).1 := by
  induction s with
  | nil => intro r hr; exact hr
  | cons uid rest ih =>
    intro r hr
    cases hd : deliver uid with
    | none => simpa [notifyLoop, hd] using ih r hr
    | some msg =>
      by_cases hb : isBlockedError msg = true
      · have hne : x ≠ uid := by
          intro he; subst he
          simp [evicted, hd, hb] at hx
        simpa [notifyLoop, hd, hb] using
          ih (r.erase uid) (Finset.mem_erase.2 ⟨hne, hr⟩)
      · simpa [notifyLoop, hd, hb] using ih r hr

/-- Helper: the loop only shrinks the registry. -/
theorem notifyLoop_subset (deliver : ℤ → Option String) (s : List ℤ) :
    ∀ r : Finset ℤ, (notifyLoop deliver s r).1 ⊆ r := by
  induction s with
  | nil => intro r; exact Finset.Subset.refl r
  | cons uid rest ih =>
    intro r
    cases hd : deliver uid with
    | none => simpa [notifyLoop, hd] using ih r
    | some msg =>
      by_cases hb : isBlockedError msg = true
      · simp only [notifyLoop, hd, hb, if_pos]
        exact (ih (r.erase uid)).trans (Finset.erase_subset uid r)
      · simpa [notifyLoop, hd, hb] using ih r

/-- Helper: a recipient in the snapshot whose delivery fails with the
blocked signal is absent from the registry after the loop. -/
theorem not_mem_notifyLoop_of_evicted (deliver : ℤ → Option String) (x : ℤ)
    (hx : evicted deliver x = true) (s : List ℤ) (hs : x ∈ s) :
    ∀ r : Finset ℤ, x ∉ (notifyLoop deliver s r).1 := by
  induction s with
  | nil => cases hs
  | cons uid rest ih =>
    intro r
    by_cases he : x = uid
    · subst he
      cases hd : deliver x with
      | none => simp [evicted, hd] at hx
      | some msg =>
        have hb : isBlockedError msg = true := by
          simpa [evicted, hd] using hx
        simp only [notifyLoop, hd, hb, if_pos]
        intro hmem
        exact (Finset.mem_erase.1 (notifyLoop_subset deliver rest _ hmem)).1
          rfl
    · have hs' : x ∈ rest := by
        rcases List.mem_cons.1 hs with h | h
        · exact absurd h he
        · exact h
      cases hd : deliver uid with
      | none => simpa [notifyLoop, hd] using ih hs' r
      | some msg =>
        by_cases hb : isBlockedError msg = true
        · simpa [notifyLoop, hd, hb] using ih hs' (r.erase uid)
        · simpa [notifyLoop, hd, hb] using ih hs' r

/-- Helper: every recipient in the snapshot whose delivery succeeds receives
the message, regardless of what happens to other recipients. -/
theorem mem_notifyLoop_delivered (deliver : ℤ → Option String) (x : ℤ)
    (hx : deliver x = none) (s : List ℤ) (hs : x ∈ s) :
    ∀ r : Finset ℤ, x ∈ (notifyLoop deliver s r).2 := by
  induction s with
  | nil => cases hs
  | cons uid rest ih =>
    intro r
    by_cases he : x = uid
    · subst he
      simp [notifyLoop, hx]
    · have hs' : x ∈ rest := by
        rcases List.mem_cons.1 hs with h | h
        · exact absurd h he
        · exact h
      cases hd : deliver uid with
      | none =>
        simp [notifyLoop, hd]
        exact Or.inr (ih hs' r)
      | some msg =>
        by_cases hb : isBlockedError msg = true
        · simpa [notifyLoop, hd, hb] using ih hs' (r.erase uid)
        · simpa [notifyLoop, hd, hb] using ih hs' r

/-- C7: fan-out isolation. For distinct subscribers `A` and `B` in the
registry, if delivery to `A` raises a transient (non-blocked) exception and
delivery to `B` succeeds, then `B` still receives the message and `A`
remains in the registry after `send_price_notification`. -/
theorem fanout_isolation (deliver : ℤ → Option String) (r : Finset ℤ)
    (A B : ℤ) (_hAB : A ≠ B) (hA : A ∈ r) (hB : B ∈ r) (msg : String)
    (hdA : deliver A = some msg) (hblk : isBlockedError msg = false)
    (hdB : deliver B = none) :
    B ∈ (send_price_notification deliver r).2 ∧
    A ∈ (send_price_notification deliver r).1 := by
  have hne : r ≠ ∅ := Finset.ne_empty_of_mem hA
  have hAe : evicted deliver A = false := by simp [evicted, hdA, hblk]
  constructor
  · simpa [send_price_notification, hne] using
      mem_notifyLoop_delivered deliver B hdB (r.sort (· ≤ ·))
        ((Finset.mem_sort _).2 hB) r
  · simpa [send_price_notification, hne] using
      mem_notifyLoop_of_not_evicted deliver A hAe (r.sort (· ≤ ·)) r hA

/-- A concrete delivery outcome for the witnesses: recipient 1 raises a
transient network exception, everyone else succeeds. -/
def transientDeliver : ℤ → Option String :=
  fun uid => if uid = 1 then some "Network timeout" else none

/-- Witness for C7: registry `{1, 2}`, delivery to 1 fails transiently,
delivery to 2 succeeds; 2 receives the message and 1 stays subscribed. -/
theorem fanout_isolation_witness :
    2 ∈ (send_price_notification transientDeliver {1, 2}).2 ∧
    1 ∈ (send_price_notification transientDeliver {1, 2}).1 :=
  fanout_isolation transientDeliver {1, 2} 1 2 (by decide) (by decide)
    (by decide) "Network timeout" rfl (by decide) rfl

/-- C8: eviction happens exactly on the blocked signal. A subscriber `A` is
absent from the registry after `send_price_notification` if and only if the
delivery to `A` raised an exception whose text contains
`"bot was blocked"` (lower-cased); a successful delivery or any other
failure leaves `A` subscribed. -/
theorem eviction_iff_blocked (deliver : ℤ → Option String) (r : Finset ℤ)
    (A : ℤ) (hA : A ∈ r) :
    A ∉ (send_price_notification deliver r).1 ↔ evicted deliver A = true := by
  have hne : r ≠ ∅ := Finset.ne_empty_of_mem hA
  constructor
  · intro hout
    by_contra hb
    have hb' : evicted deliver A = false := by
      cases h : evicted deliver A
      · rfl
      · exact absurd h hb
    exact hout (by
      simpa [send_price_notification, hne] using
        mem_notifyLoop_of_not_evicted deliver A hb' (r.sort (· ≤ ·)) r hA)
  · intro hb
    simpa [send_price_notification, hne] using
      not_mem_notifyLoop_of_evicted deliver A hb (r.sort (· ≤ ·))
        ((Finset.mem_sort _).2 hA) r

/-- A delivery outcome for the C8 witness: recipient 1 raises the permanent
blocked exception, everyone else succeeds. -/
def blockedDeliver : ℤ → Option String :=
  fun uid =>
    if uid = 1 then some "Forbidden: bot was blocked by the user" else none

/-- Witness for C8: registry `{1, 2}`, delivery to 1 fails with the blocked
signal; the theorem instantiates to the concrete eviction equivalence. -/
theorem eviction_iff_blocked_witness :
    (1 ∉ (send_price_notification blockedDeliver {1, 2}).1 ↔
      evicted blockedDeliver 1 = true) ∧
    evicted blockedDeliver 1 = true :=
  ⟨eviction_iff_blocked blockedDeliver {1, 2} 1 (by decide), by decide⟩

/-- The reply sent back by the `/price` command handler: either the current
price report or the degraded failure text
("❌ Не удалось получить текущий курс. Попробуйте позже."). -/
inductive PriceReply where
  | current (p : ℚ)
  | failureText
  deriving DecidableEq, Repr

/-- `price_handler` (src/main.py lines 86-96): fetch the price and test it
with Python truthiness (`if current_price:`), which is false both for `None`
and for `0.0`; on a truthy value report the price, otherwise reply with the
failure text. -/
def price_handler (fetch : Option ℚ) : PriceReply :=
  match fetch with
  | some current_price =>
    if current_price ≠ 0 then .current current_price else .failureText
  | none => .failureText

/-- C9 counterexample: a successful fetch of exactly 0 (a non-negative
price) makes `/price` reply with the failure text rather than report the
price, because the handler tests the value with `if current_price:` instead
of `is not None`. -/
theorem price_handler_zero_counterexample :
    price_handler (some 0) = PriceReply.failureText ∧
    PriceReply.failureText ≠ PriceReply.current 0 :=
  ⟨rfl, by decide⟩

/-- C9 amended: the `/price` handler always responds — when the fetch
succeeds with a positive price `p` it reports `p` as the current price, and
when the fetch fails (or returns the falsy 0) it replies with the
user-visible failure text. (The counterexample forces "non-negative" to
"positive".) -/
theorem price_handler_responds (p : ℚ) (hp : 0 < p) :
    price_handler (some p) = PriceReply.current p ∧
    price_handler none = PriceReply.failureText ∧
    price_handler (some 0) = PriceReply.failureText :=
  ⟨by simp [price_handler, ne_of_gt hp], rfl, rfl⟩

/-- Witness for C9 (amended): fetch succeeds with 3000. -/
theorem price_handler_responds_witness :
    price_handler (some 3000) = PriceReply.current 3000 ∧
    price_handler none = PriceReply.failureText ∧
    price_handler (some 0) = PriceReply.failureText :=
  price_handler_responds 3000 (by norm_num)

/-- C10: the monitor loop tests the fetch result with `is None`
(src/main.py line 162), so a successfully fetched price of exactly 0 is a
valid price, not a failure: from an unset baseline it establishes the
baseline at 0 with no notification, against an established reference `r` it
participates in the threshold comparison (notifying with delta `0 - r` iff
`abs(0 - r) >= threshold`), and it always updates `last_eth_price` to 0 —
in contrast to a failed fetch, which changes nothing. -/
theorem monitor_accepts_zero_price (th r : ℚ) (le : Option ℚ) :
    price_monitoring_iter th ⟨le, none⟩ (some 0) =
      (⟨some 0, some 0⟩, []) ∧
    (|0 - r| ≥ th → price_monitoring_iter th ⟨le, some r⟩ (some 0) =
      (⟨some 0, some 0⟩, [(0, 0 - r)])) ∧
    (|0 - r| < th → price_monitoring_iter th ⟨le, some r⟩ (some 0) =
      (⟨some 0, some r⟩, [])) ∧
    price_monitoring_iter th ⟨le, none⟩ none = (⟨le, none⟩, []) :=
  ⟨rfl,
   fun h => by simp [price_monitoring_iter]; simpa using h,
   fun h => by simp [price_monitoring_iter, not_le.2 h]; simpa using h,
   rfl⟩

/-- Witness for C10: threshold 50, reference 60, fetched price 0. -/
theorem monitor_accepts_zero_price_witness :
    price_monitoring_iter 50 ⟨none, none⟩ (some 0) =
      (⟨some 0, some 0⟩, []) ∧
    price_monitoring_iter 50 ⟨none, some 60⟩ (some 0) =
      (⟨some 0, some 0⟩, [(0, 0 - 60)]) :=
  ⟨(monitor_accepts_zero_price 50 60 none).1,
   (monitor_accepts_zero_price 50 60 none).2.1 (by norm_num)⟩

end EthBot
